import Mathlib

set_option linter.unusedVariables false

/-! Shallow embedding of the GroupSync reconciliation controller
(`controllers/groupsync_controller.go`).  Pure functions of the source are
translated to Lean functions; every external collaborator call (the resource
store, the provider syncers, the clock, the cron parser) is modelled by the
outcome it returns, passed in explicitly. -/

/-- Association-list model of a Go `map[string]string`: lookup returns the
first binding for a key, insertion replaces any existing binding. -/
abbrev SMap : Type := List (String × String)

/-- Lookup in an `SMap`, modelling Go map indexing with the comma-ok idiom
(`v, exists := m[k]`). -/
def smapGet : SMap → String → Option String
  | [], _ => none
  | p :: rest, k => if p.1 = k then some p.2 else smapGet rest k

/-- Insertion into an `SMap`, modelling Go map assignment `m[k] = v`. -/
def smapInsert : SMap → String → String → SMap
  | [], k, v => [(k, v)]
  | p :: rest, k, v => if p.1 = k then smapInsert rest k v else p :: smapInsert rest k v

/-- Modelled from the spec: the fixed well-known ownership label key
(`constants.SyncProvider`); the constants package is not among the sources. -/
def SyncProvider : String := "redhat-cop.redhat.io/sync-provider"

/-- Modelled from the spec: the fixed well-known sync-timestamp key
(`constants.SyncTimestamp`); the constants package is not among the sources. -/
def SyncTimestamp : String := "redhat-cop.redhat.io/sync-timestamp"

/-- A `userv1.Group`: both the downstream OpenShift group objects and the
groups a provider's `Sync` returns use this shape.  Go nil maps are `none`. -/
structure OcpGroup where
  name : String
  labels : Option SMap
  annotations : Option SMap
  users : List String
deriving DecidableEq

/-- Go `g.Labels[k]` with the comma-ok idiom; a nil map has no entries. -/
def OcpGroup.labelValue (g : OcpGroup) (k : String) : Option String :=
  match g.labels with
  | none => none
  | some m => smapGet m k

/-- Go `g.Annotations[k]` with the comma-ok idiom; a nil map has no entries. -/
def OcpGroup.annValue (g : OcpGroup) (k : String) : Option String :=
  match g.annotations with
  | none => none
  | some m => smapGet m k

/-- The zero value of `userv1.Group` with only `Name` set (lines 126-127). -/
def freshGroup (n : String) : OcpGroup :=
  { name := n, labels := none, annotations := none, users := [] }

/-- The cluster store of downstream group objects. -/
abbrev Store : Type := List OcpGroup

/-- Lookup of a downstream group by name (the client `Get` on line 122). -/
def storeGet : Store → String → Option OcpGroup
  | [], _ => none
  | g :: rest, n => if g.name = n then some g else storeGet rest n

/-- Modelled from the spec: `CreateOrUpdateResource` (operator-utils, not
among the sources) creates the object when absent and replaces it otherwise. -/
def storePut : Store → OcpGroup → Store
  | [], g => [g]
  | h :: rest, g => if h.name = g.name then g :: rest else h :: storePut rest g

/-- A Go `time.Time` as the controller observes it: wall-clock fields plus
the zone name and offset (seconds east of UTC) that `t.Zone()` returns. -/
structure GoTime where
  year : Int
  month : Int
  day : Int
  hour : Int
  minute : Int
  second : Int
  zoneName : String
  zoneOffset : Int
deriving DecidableEq

/-- Go `fmt` zero-padded decimal (`%02d`, `%03d`, ...): the minus sign counts
toward the width and the padding goes between the sign and the digits; no
plus sign is ever produced for positive values. -/
def goZeroPad (width : Nat) (n : Int) : String :=
  let digits := Nat.repr n.natAbs
  let sign := if n < 0 then "-" else ""
  let len := sign.length + digits.length
  if width ≤ len then sign ++ digits
  else sign ++ String.mk (List.replicate (width - len) '0') ++ digits

/-- The `%04d-%02d-%02dT%02d:%02d:%02d` portion of lines 245-246. -/
def isoDateTimePart (t : GoTime) : String :=
  goZeroPad 4 t.year ++ "-" ++ goZeroPad 2 t.month ++ "-" ++ goZeroPad 2 t.day ++ "T" ++
  goZeroPad 2 t.hour ++ ":" ++ goZeroPad 2 t.minute ++ ":" ++ goZeroPad 2 t.second

/-- Lines 238-247: the sync-timestamp formatter.  `Int.tdiv` is Go's
truncating integer division. -/
def ISO8601 (t : GoTime) : String :=
  let tz := if t.zoneName = "UTC" then "Z" else goZeroPad 3 (Int.tdiv t.zoneOffset 3600) ++ "00"
  isoDateTimePart t ++ tz

def utcSampleTime : GoTime :=
  { year := 2023, month := 1, day := 5, hour := 3, minute := 4, second := 5,
    zoneName := "UTC", zoneOffset := 0 }

def plus5SampleTime : GoTime :=
  { year := 2023, month := 1, day := 5, hour := 3, minute := 4, second := 5,
    zoneName := "UTC+5", zoneOffset := 18000 }

def minus5SampleTime : GoTime :=
  { year := 2023, month := 1, day := 5, hour := 3, minute := 4, second := 5,
    zoneName := "UTC-5", zoneOffset := -18000 }

def gmtSampleTime : GoTime :=
  { year := 2023, month := 1, day := 5, hour := 3, minute := 4, second := 5,
    zoneName := "GMT", zoneOffset := 0 }

def halfHourSampleTime : GoTime :=
  { year := 2023, month := 1, day := 5, hour := 3, minute := 4, second := 5,
    zoneName := "IST", zoneOffset := 19800 }

/-- Outcome of the client `Get` for one downstream group (lines 121-130):
found, not-found, or a transient error. -/
inductive GetOutcome where
  | found (g : OcpGroup)
  | notFound
  | err (msg : String)
deriving DecidableEq

/-- Decision taken by the per-group body of the upsert loop. -/
inductive MergeDecision where
  | skip
  | apply (g : OcpGroup)
  | abort (msg : String)
deriving DecidableEq

/-- Lines 139-159: replace labels and annotations with the provider-supplied
maps (an empty map when nil), add the mandatory ownership label and the
sync-timestamp, and replace the members wholesale. -/
def copyGroupFields (ocpGroup : OcpGroup) (group : OcpGroup) (providerLabel ts : String) : OcpGroup :=
  let ocpGroupLabels : SMap := match group.labels with | some m => m | none => []
  let ocpGroupAnnotations : SMap := match group.annotations with | some m => m | none => []
  { name := ocpGroup.name
    labels := some (smapInsert ocpGroupLabels SyncProvider providerLabel)
    annotations := some (smapInsert ocpGroupAnnotations SyncTimestamp ts)
    users := group.users }

/-- Lines 121-159: the merge decision for one external group, given the
outcome of the store lookup.  An existing group whose ownership label is
absent or differs from `providerLabel` is skipped (line 133-136). -/
def mergeGroup (getRes : GetOutcome) (group : OcpGroup) (providerLabel ts : String) : MergeDecision :=
  match getRes with
  | GetOutcome.err m => MergeDecision.abort m
  | GetOutcome.notFound =>
    MergeDecision.apply (copyGroupFields (freshGroup group.name) group providerLabel ts)
  | GetOutcome.found ocpGroup =>
    match OcpGroup.labelValue ocpGroup SyncProvider with
    | none => MergeDecision.skip
    | some groupProviderLabel =>
      if groupProviderLabel = providerLabel then
        MergeDecision.apply (copyGroupFields ocpGroup group providerLabel ts)
      else
        MergeDecision.skip

/-- Outcome of the store lookup on line 122: `getErr` models a client
failure other than not-found, otherwise the store decides. -/
def lookupOutcome (getErr : String → Option String) (store : Store) (n : String) : GetOutcome :=
  match getErr n with
  | some e => GetOutcome.err e
  | none =>
    match storeGet store n with
    | some g => GetOutcome.found g
    | none => GetOutcome.notFound

/-- Lines 119-170: the inner loop over one provider's groups.  `updateErr`
models the outcome of `CreateOrUpdateResource` per group name.  Returns the
store after the loop together with the error that aborted it, if any. -/
def processGroups (getErr updateErr : String → Option String) (providerLabel ts : String) :
    Store → List OcpGroup → Store × Option String
  | store, [] => (store, none)
  | store, group :: rest =>
    match mergeGroup (lookupOutcome getErr store group.name) group providerLabel ts with
    | MergeDecision.abort e => (store, some e)
    | MergeDecision.skip => processGroups getErr updateErr providerLabel ts store rest
    | MergeDecision.apply g =>
      match updateErr group.name with
      | some e => (store, some e)
      | none => processGroups getErr updateErr providerLabel ts (storePut store g) rest

/-- Modelled from the spec: a provider syncer's capability surface
(`Bind() -> error`, `Sync() -> (groups, error)`, the provider name).  The
concrete syncers live outside the sources, so each call's outcome is data. -/
structure ProviderSyncer where
  providerName : String
  bindResult : Option String
  syncResult : Except String (List OcpGroup)

/-- Lines 97-174: the loop over the configured providers, in spec order.
The composite ownership tag is built on line 102. -/
def processProviders (getErr updateErr : String → Option String) (instanceName ts : String) :
    Store → List ProviderSyncer → Store × Option String
  | store, [] => (store, none)
  | store, p :: rest =>
    let providerLabel := instanceName ++ "_" ++ p.providerName
    match p.bindResult with
    | some e => (store, some e)
    | none =>
      match p.syncResult with
      | Except.error e => (store, some e)
      | Except.ok groups =>
        match processGroups getErr updateErr providerLabel ts store groups with
        | (store2, some e) => (store2, some e)
        | (store2, none) => processProviders getErr updateErr instanceName ts store2 rest

/-- A status condition; the type is always the fixed `"groupsync"` and the
status always `True` (lines 199-204, 220-225), so only reason and message
vary. -/
structure Condition where
  reason : String
  message : String
deriving DecidableEq

/-- A warning event emitted against the resource (line 218). -/
structure EventRecord where
  eventtype : String
  reason : String
  message : String
deriving DecidableEq

/-- Observable effects of `manageError` and `manageSuccess`:
the events emitted, the condition set on the instance, the outcome of the
attempted status persist, and the returned error. -/
structure StatusReport where
  events : List EventRecord
  condition : Condition
  statusPersistError : Option String
  retErr : Option String
deriving DecidableEq

/-- Lines 217-236.  Both return sites of the source return
`(reconcile.Result{}, err)`: the guard there tests the non-nil argument
`err`, so a failed status update (`updateErr`) is only logged, never
returned. -/
def manageError (statusUpdateResult : Option String) (err : String) : StatusReport :=
  { events := [{ eventtype := "Warning", reason := "GroupSyncError", message := err }]
    condition := { reason := "synchronization error", message := err }
    statusPersistError := statusUpdateResult
    retErr := some err }

/-- Lines 198-215: set the success condition, persist the status, and
return the persist error, if any. -/
def manageSuccess (statusUpdateResult : Option String) : StatusReport :=
  { events := []
    condition := { reason := "synchronization succeeded",
                   message := "group synchronization has succeeded" }
    statusPersistError := statusUpdateResult
    retErr := statusUpdateResult }

/-- The GroupSync custom resource fields the controller reads. -/
structure GroupSync where
  name : String
  schedule : String
deriving DecidableEq

/-- Outcome of fetching the GroupSync resource (lines 61-72); `err` is any
fetch failure other than not-found. -/
inductive FetchOutcome where
  | ok (inst : GroupSync)
  | notFound
  | err (msg : String)

/-- One reconcile pass's external world: the outcome of every collaborator
call, the current store, and the clock (collapsed to one instant).
`mgrErr`, `setDefaultsChanged` and `validateErr` model
`syncer.GetGroupSyncMgr`, `SetDefaults` and `Validate` (pkg/syncer, not
among the sources).  `cronNext` models `cron.ParseStandard`: `none` exactly
when parsing fails, in which case the source is left holding a nil
`cron.Schedule` interface value. -/
structure Env where
  fetch : FetchOutcome
  mgrErr : Option String
  setDefaultsChanged : Bool
  specUpdateErr : Option String
  validateErr : Option String
  providers : List ProviderSyncer
  getErr : String → Option String
  updateErr : String → Option String
  statusUpdateErr : Option String
  now : GoTime
  nowUnix : Int
  cronNext : String → Option (Int → Int)
  store : Store

/-- Everything observable about one reconcile pass: the final store, the
events emitted, the in-memory status fields, the returned result and error,
and whether the pass panicked.  `requeueAfter = 0` is Go's zero duration,
i.e. no requeue delay. -/
structure ReconcileOut where
  store : Store
  events : List EventRecord
  condition : Option Condition
  lastSyncSuccessTime : Option Int
  requeueAfter : Int
  error : Option String
  panicked : Bool
deriving DecidableEq

/-- The error path of `Reconcile`: route through `manageError`, keeping the
store as left at the failure. -/
def errorOut (env : Env) (store : Store) (e : String) : ReconcileOut :=
  let rep := manageError env.statusUpdateErr e
  { store := store
    events := rep.events
    condition := some rep.condition
    lastSyncSuccessTime := none
    requeueAfter := 0
    error := rep.retErr
    panicked := false }

/-- Lines 56-189: one reconcile pass.  The branch where `cronNext` returns
`none` models line 184: `sched` is the nil interface returned by the failed
`cron.ParseStandard` of line 181, and `sched.Next(currentTime)`
dereferences it, so the pass panics instead of returning. -/
def Reconcile (env : Env) : ReconcileOut :=
  match env.fetch with
  | FetchOutcome.notFound =>
    { store := env.store, events := [], condition := none, lastSyncSuccessTime := none,
      requeueAfter := 0, error := none, panicked := false }
  | FetchOutcome.err m =>
    { store := env.store, events := [], condition := none, lastSyncSuccessTime := none,
      requeueAfter := 0, error := some m, panicked := false }
  | FetchOutcome.ok inst =>
    match env.mgrErr with
    | some e => errorOut env env.store e
    | none =>
      if env.setDefaultsChanged then
        match env.specUpdateErr with
        | some e => errorOut env env.store e
        | none =>
          { store := env.store, events := [], condition := none, lastSyncSuccessTime := none,
            requeueAfter := 0, error := none, panicked := false }
      else
        match env.validateErr with
        | some e => errorOut env env.store e
        | none =>
          match processProviders env.getErr env.updateErr inst.name (ISO8601 env.now)
              env.store env.providers with
          | (store2, some e) => errorOut env store2 e
          | (store2, none) =>
            let success := manageSuccess env.statusUpdateErr
            if success.retErr = none ∧ inst.schedule ≠ "" then
              match env.cronNext inst.schedule with
              | none =>
                { store := store2, events := [], condition := some success.condition,
                  lastSyncSuccessTime := some env.nowUnix, requeueAfter := 0,
                  error := none, panicked := true }
              | some next =>
                { store := store2, events := [], condition := some success.condition,
                  lastSyncSuccessTime := some env.nowUnix,
                  requeueAfter := next env.nowUnix - env.nowUnix,
                  error := none, panicked := false }
            else
              { store := store2, events := [], condition := some success.condition,
                lastSyncSuccessTime := some env.nowUnix, requeueAfter := 0,
                error := success.retErr, panicked := false }

/-- A sample GroupSync resource with no schedule. -/
def instGS : GroupSync := { name := "gs", schedule := "" }

/-- A downstream group owned by a different provider. -/
def foreignGroup : OcpGroup :=
  { name := "devs", labels := some [(SyncProvider, "other_prov")],
    annotations := none, users := ["alice"] }

/-- A provider-supplied group named `devs` with a single member. -/
def extGroup : OcpGroup :=
  { name := "devs", labels := none, annotations := none, users := ["bob"] }

/-- A downstream group owned by `gs_ldap`, with a manual extra label and
members A, B. -/
def ownedGroup : OcpGroup :=
  { name := "devs", labels := some [(SyncProvider, "gs_ldap"), ("foo", "bar")],
    annotations := some [("keep", "no")], users := ["A", "B"] }

/-- A provider-supplied group whose member set is just C. -/
def extGroupC : OcpGroup :=
  { name := "devs", labels := none, annotations := none, users := ["C"] }

/-- A provider that binds, syncs and reports one group. -/
def provOk : ProviderSyncer :=
  { providerName := "ldap", bindResult := none, syncResult := Except.ok [extGroupC] }

/-- A provider whose `Bind` fails. -/
def provBad : ProviderSyncer :=
  { providerName := "gh", bindResult := some "bind failed", syncResult := Except.ok [] }

/-- A benign environment: successful fetch, no defaults change, validation
passes, no providers, empty store, well-behaved clients. -/
def baseEnv : Env :=
  { fetch := FetchOutcome.ok instGS
    mgrErr := none
    setDefaultsChanged := false
    specUpdateErr := none
    validateErr := none
    providers := []
    getErr := fun _ => none
    updateErr := fun _ => none
    statusUpdateErr := none
    now := utcSampleTime
    nowUnix := 100
    cronNext := fun _ => none
    store := [] }

/-- The store after the first provider of `envC5` has upserted `devs`. -/
def storeAfterProv1 : Store :=
  [copyGroupFields (freshGroup "devs") extGroupC ("gs" ++ "_" ++ "ldap") (ISO8601 utcSampleTime)]

/-- Two providers: the first succeeds and upserts a group, the second fails
at `Bind`. -/
def envC5 : Env := { baseEnv with providers := [provOk, provBad] }

/-- The resource has vanished before the fetch. -/
def envC7nf : Env := { baseEnv with fetch := FetchOutcome.notFound }

/-- The fetch fails with a transient error. -/
def envC7err : Env := { baseEnv with fetch := FetchOutcome.err "boom" }

/-- Applying defaults changes the spec and the spec update succeeds. -/
def envC8 : Env := { baseEnv with setDefaultsChanged := true }

/-- The lookup of the downstream group `devs` fails with a transient error. -/
def envC9 : Env :=
  { baseEnv with
    providers := [provOk]
    getErr := fun n => if n = "devs" then some "get failed" else none }

/-- A successful sync but a schedule string that fails to parse. -/
def envC2 : Env :=
  { baseEnv with
    fetch := FetchOutcome.ok { name := "gs", schedule := "bad sched" }
    providers := [provOk] }


/-- Go-map extensionality for `smapInsert`: the inserted key maps to the new
value, every other key is unchanged. -/
theorem smapGet_insert (m : SMap) (k v k' : String) :
    smapGet (smapInsert m k v) k' = if k' = k then some v else smapGet m k' := by
  induction m with
  | nil =>
    simp only [smapInsert, smapGet]
    by_cases h : k' = k
    · simp [h]
    · rw [if_neg (fun hh => h hh.symm), if_neg h]
  | cons p rest ih =>
    simp only [smapInsert]
    by_cases hp : p.1 = k
    · rw [if_pos hp, ih]
      by_cases h : k' = k
      · rw [if_pos h, if_pos h]
      · rw [if_neg h, if_neg h]
        simp only [smapGet]
        rw [if_neg (by rw [hp]; exact fun hh => h hh.symm)]
    · rw [if_neg hp]
      simp only [smapGet]
      by_cases hq : p.1 = k'
      · rw [if_pos hq, if_pos hq, if_neg (fun hh => hp (hq.trans hh))]
      · rw [if_neg hq, if_neg hq, ih]

/-- Running the group loop over a concatenation: a clean prefix run carries
its resulting store into the rest of the list. -/
theorem processGroups_append (getErr updateErr : String → Option String) (pl ts : String)
    (gs1 gs2 : List OcpGroup) (store st1 : Store)
    (h : processGroups getErr updateErr pl ts store gs1 = (st1, none)) :
    processGroups getErr updateErr pl ts store (gs1 ++ gs2) =
      processGroups getErr updateErr pl ts st1 gs2 := by
  induction gs1 generalizing store with
  | nil =>
    simp only [processGroups, Prod.mk.injEq] at h
    rw [List.nil_append, h.1]
  | cons g rest ih =>
    simp only [List.cons_append, processGroups] at h ⊢
    cases hm : mergeGroup (lookupOutcome getErr store g.name) g pl ts with
    | abort e => rw [hm] at h; simp at h
    | skip => rw [hm] at h; exact ih _ h
    | apply g2 =>
      rw [hm] at h
      cases hu : updateErr g.name with
      | some e => rw [hu] at h; simp at h
      | none => rw [hu] at h; exact ih _ h

/-- Claim C1: exclusive ownership — when a downstream group object already
exists with an ownership label that is absent or not equal to the composite
tag of the provider currently processing it, the upsert step skips the
group (applies nothing, reports no error), leaves the store — hence the
object's labels, annotations and members — unchanged, and continues with
the remaining groups. -/
theorem upsert_skips_foreign_owned_group
    (getErr updateErr : String → Option String) (providerLabel ts : String)
    (store : Store) (group : OcpGroup) (rest : List OcpGroup) (og : OcpGroup)
    (hget : getErr group.name = none)
    (hfound : storeGet store group.name = some og)
    (hforeign : og.labelValue SyncProvider ≠ some providerLabel) :
    mergeGroup (lookupOutcome getErr store group.name) group providerLabel ts =
      MergeDecision.skip ∧
    processGroups getErr updateErr providerLabel ts store (group :: rest) =
      processGroups getErr updateErr providerLabel ts store rest := by
  have hskip : mergeGroup (lookupOutcome getErr store group.name) group providerLabel ts =
      MergeDecision.skip := by
    simp only [lookupOutcome, hget, hfound, mergeGroup]
    cases hl : og.labelValue SyncProvider with
    | none => rfl
    | some l =>
      have hne : ¬ (l = providerLabel) := fun he => hforeign (by rw [hl, he])
      simp [hne]
  refine ⟨hskip, ?_⟩
  simp only [processGroups, hskip]

/-- Witness for C1 at concrete inputs: a group owned by `other_prov` is not
touched by provider tag `gs_ldap`. -/
theorem upsert_skips_foreign_owned_group_witness :
    (fun _ : String => (none : Option String)) extGroup.name = none ∧
    storeGet [foreignGroup] extGroup.name = some foreignGroup ∧
    foreignGroup.labelValue SyncProvider ≠ some "gs_ldap" ∧
    (mergeGroup (lookupOutcome (fun _ => none) [foreignGroup] extGroup.name)
        extGroup "gs_ldap" "ts" = MergeDecision.skip ∧
      processGroups (fun _ => none) (fun _ => none) "gs_ldap" "ts" [foreignGroup]
          (extGroup :: []) =
        processGroups (fun _ => none) (fun _ => none) "gs_ldap" "ts" [foreignGroup] []) :=
  ⟨rfl, by decide, by decide,
    upsert_skips_foreign_owned_group (fun _ => none) (fun _ => none) "gs_ldap" "ts"
      [foreignGroup] extGroup [] foreignGroup rfl (by decide) (by decide)⟩

/-- Claim C4: full-overwrite semantics of the upsert step — when the
existing ownership label matches the provider's tag, the applied object's
labels are exactly the external group's labels plus the ownership label
(which wins any collision), its annotations are exactly the external
group's annotations plus the sync-timestamp, and its members are replaced
wholesale; nothing pre-existing survives unless resupplied. -/
theorem upsert_full_overwrite
    (og group : OcpGroup) (providerLabel ts : String)
    (howned : og.labelValue SyncProvider = some providerLabel) :
    ∃ g', mergeGroup (GetOutcome.found og) group providerLabel ts = MergeDecision.apply g' ∧
      g'.name = og.name ∧
      g'.users = group.users ∧
      (∀ k, g'.labelValue k =
        if k = SyncProvider then some providerLabel else group.labelValue k) ∧
      (∀ k, g'.annValue k =
        if k = SyncTimestamp then some ts else group.annValue k) := by
  refine ⟨copyGroupFields og group providerLabel ts, ?_, rfl, rfl, ?_, ?_⟩
  · simp [mergeGroup, howned]
  · intro k
    cases hL : group.labels with
    | none =>
      simp only [copyGroupFields, OcpGroup.labelValue, hL, smapGet_insert]
      by_cases hk : k = SyncProvider
      · simp [hk, smapGet]
      · simp [hk, smapGet]
    | some m => simp [copyGroupFields, OcpGroup.labelValue, hL, smapGet_insert]
  · intro k
    cases hA : group.annotations with
    | none =>
      simp only [copyGroupFields, OcpGroup.annValue, hA, smapGet_insert]
      by_cases hk : k = SyncTimestamp
      · simp [hk, smapGet]
      · simp [hk, smapGet]
    | some m => simp [copyGroupFields, OcpGroup.annValue, hA, smapGet_insert]

/-- Witness for C4 at concrete inputs: members {A,B} and the manual label
`foo=bar` are replaced by member {C} and the mandatory labels only. -/
theorem upsert_full_overwrite_witness :
    ownedGroup.labelValue SyncProvider = some "gs_ldap" ∧
    (∃ g', mergeGroup (GetOutcome.found ownedGroup) extGroupC "gs_ldap" "ts" =
        MergeDecision.apply g' ∧
      g'.name = ownedGroup.name ∧
      g'.users = extGroupC.users ∧
      (∀ k, g'.labelValue k =
        if k = SyncProvider then some "gs_ldap" else extGroupC.labelValue k) ∧
      (∀ k, g'.annValue k =
        if k = SyncTimestamp then some "ts" else extGroupC.annValue k)) :=
  ⟨by decide, upsert_full_overwrite ownedGroup extGroupC "gs_ldap" "ts" (by decide)⟩

/-- Counterexample to C3: at the wall-clock time 2023-01-05T03:04:05 in a
zone at UTC+5, the formatter does not produce the signed offset suffix
`+0500` the claim requires. -/
theorem iso8601_plus5_not_signed :
    ISO8601 plus5SampleTime ≠ "2023-01-05T03:04:05+0500" := by decide

/-- Claim C3 (amended): the formatter produces `YYYY-MM-DDTHH:MM:SS`
followed by `Z` when the zone is named `UTC`; otherwise it appends the
offset's hour quotient as a width-3 zero-padded decimal — a minus sign
counts toward the width, a positive value gets no sign — followed by `00`.
So Format(UTC 2023-01-05T03:04:05) is `2023-01-05T03:04:05Z`, the same
wall clock at UTC+5 gives `2023-01-05T03:04:0500500`, and at UTC-5 gives
`2023-01-05T03:04:05-0500`. -/
theorem iso8601_format_amended :
    (∀ t : GoTime, t.zoneName = "UTC" → ISO8601 t = isoDateTimePart t ++ "Z") ∧
    ISO8601 utcSampleTime = "2023-01-05T03:04:05Z" ∧
    ISO8601 plus5SampleTime = "2023-01-05T03:04:0500500" ∧
    ISO8601 minus5SampleTime = "2023-01-05T03:04:05-0500" := by
  refine ⟨?_, by decide, by decide, by decide⟩
  intro t h
  simp [ISO8601, h]

/-- Witness for the amended C3 at the concrete UTC sample time. -/
theorem iso8601_format_amended_witness :
    utcSampleTime.zoneName = "UTC" ∧
    ISO8601 utcSampleTime = isoDateTimePart utcSampleTime ++ "Z" :=
  ⟨rfl, iso8601_format_amended.1 utcSampleTime rfl⟩

/-- Claim C10: the formatter selects the `Z` suffix by comparing the zone
name to the literal `"UTC"`, not by the offset being zero — a zero-offset
zone named `GMT` gets the numeric suffix `00000` instead of `Z` — and it
integer-divides the offset by 3600 and hardcodes the trailing minutes as
`00`, so a zone at +05:30 formats identically to one at +05:00. -/
theorem iso8601_zone_name_and_minute_truncation :
    (∀ t : GoTime, t.zoneName ≠ "UTC" →
      ISO8601 t = isoDateTimePart t ++ (goZeroPad 3 (Int.tdiv t.zoneOffset 3600) ++ "00")) ∧
    ISO8601 gmtSampleTime = "2023-01-05T03:04:0500000" ∧
    ISO8601 halfHourSampleTime = ISO8601 plus5SampleTime := by
  refine ⟨?_, by decide, by decide⟩
  intro t h
  simp [ISO8601, h]

/-- Witness for C10 at the concrete GMT sample time. -/
theorem iso8601_zone_name_and_minute_truncation_witness :
    gmtSampleTime.zoneName ≠ "UTC" ∧
    ISO8601 gmtSampleTime =
      isoDateTimePart gmtSampleTime ++ (goZeroPad 3 (Int.tdiv gmtSampleTime.zoneOffset 3600) ++ "00") :=
  ⟨by decide, iso8601_zone_name_and_minute_truncation.1 gmtSampleTime (by decide)⟩

/-- Claim C7: a not-found fetch terminates the pass with no error, no
requeue delay and no further effects (no store writes, events, condition or
timestamp updates); any other fetch failure is returned to the caller with
no requeue delay and likewise no further effects. -/
theorem reconcile_fetch_outcomes (env : Env) :
    (env.fetch = FetchOutcome.notFound →
      Reconcile env = { store := env.store, events := [], condition := none, lastSyncSuccessTime := none, requeueAfter := 0, error := none, panicked := false }) ∧
    (∀ m, env.fetch = FetchOutcome.err m →
      Reconcile env = { store := env.store, events := [], condition := none, lastSyncSuccessTime := none, requeueAfter := 0, error := some m, panicked := false }) := by
  constructor
  · intro h
    simp [Reconcile, h]
  · intro m h
    simp [Reconcile, h]

/-- Witness for C7: a deleted resource and a failing fetch, both at
concrete environments. -/
theorem reconcile_fetch_outcomes_witness :
    (Reconcile envC7nf = { store := envC7nf.store, events := [], condition := none, lastSyncSuccessTime := none, requeueAfter := 0, error := none, panicked := false }) ∧
    (Reconcile envC7err = { store := envC7err.store, events := [], condition := none, lastSyncSuccessTime := none, requeueAfter := 0, error := some "boom", panicked := false }) :=
  ⟨(reconcile_fetch_outcomes envC7nf).1 rfl,
    (reconcile_fetch_outcomes envC7err).2 "boom" rfl⟩

/-- Claim C8: when applying defaults changes the spec and persisting the
update succeeds, the pass terminates immediately with no error and no
requeue delay, performing no provider work and no status writes. -/
theorem reconcile_defaulting_short_circuit
    (env : Env) (inst : GroupSync)
    (hfetch : env.fetch = FetchOutcome.ok inst)
    (hmgr : env.mgrErr = none)
    (hchanged : env.setDefaultsChanged = true)
    (hupd : env.specUpdateErr = none) :
    Reconcile env = { store := env.store, events := [], condition := none, lastSyncSuccessTime := none, requeueAfter := 0, error := none, panicked := false } := by
  simp [Reconcile, hfetch, hmgr, hchanged, hupd]

/-- Witness for C8 at a concrete environment. -/
theorem reconcile_defaulting_short_circuit_witness :
    envC8.fetch = FetchOutcome.ok instGS ∧
    envC8.mgrErr = none ∧
    envC8.setDefaultsChanged = true ∧
    envC8.specUpdateErr = none ∧
    Reconcile envC8 = { store := envC8.store, events := [], condition := none, lastSyncSuccessTime := none, requeueAfter := 0, error := none, panicked := false } :=
  ⟨rfl, rfl, rfl, rfl,
    reconcile_defaulting_short_circuit envC8 instGS rfl rfl rfl rfl⟩

/-- Claim C6: every error reaching the error path emits a warning event,
sets the fixed-type condition to reason `synchronization error` with the
error's message, attempts the status persist, and returns the original
error as the reconcile result — even when the persist itself fails, the
returned error is the original one, never the persist failure. -/
theorem manageError_reports_and_returns_original
    (statusUpdateResult : Option String) (e : String) :
    (manageError statusUpdateResult e).events =
      [{ eventtype := "Warning", reason := "GroupSyncError", message := e }] ∧
    (manageError statusUpdateResult e).condition =
      { reason := "synchronization error", message := e } ∧
    (manageError statusUpdateResult e).statusPersistError = statusUpdateResult ∧
    (manageError statusUpdateResult e).retErr = some e ∧
    (∀ (env : Env) (store : Store),
      (errorOut env store e).error = some e ∧ (errorOut env store e).requeueAfter = 0) :=
  ⟨rfl, rfl, rfl, rfl, fun _ _ => ⟨rfl, rfl⟩⟩

/-- Claim C5: with two providers in spec order, if the first succeeds and
has upserted its groups and the second fails at Bind or at Sync, the pass
aborts immediately — the remaining providers are never consulted — and
returns an overall error, while the store keeps the writes of the first
provider (no rollback). -/
theorem reconcile_abort_on_later_provider
    (env : Env) (inst : GroupSync) (p1 p2 : ProviderSyncer) (rest : List ProviderSyncer)
    (gs1 : List OcpGroup) (store1 : Store) (e : String)
    (hfetch : env.fetch = FetchOutcome.ok inst)
    (hmgr : env.mgrErr = none)
    (hdef : env.setDefaultsChanged = false)
    (hval : env.validateErr = none)
    (hprov : env.providers = p1 :: p2 :: rest)
    (h1bind : p1.bindResult = none)
    (h1sync : p1.syncResult = Except.ok gs1)
    (hrun1 : processGroups env.getErr env.updateErr (inst.name ++ "_" ++ p1.providerName)
      (ISO8601 env.now) env.store gs1 = (store1, none))
    (h2 : p2.bindResult = some e ∨ (p2.bindResult = none ∧ p2.syncResult = Except.error e)) :
    (Reconcile env).error = some e ∧
    (Reconcile env).store = store1 ∧
    (Reconcile env).condition = some { reason := "synchronization error", message := e } := by
  have h1 : processProviders env.getErr env.updateErr inst.name (ISO8601 env.now)
      env.store (p1 :: p2 :: rest) =
      processProviders env.getErr env.updateErr inst.name (ISO8601 env.now) store1 (p2 :: rest) := by
    simp only [processProviders, h1bind, h1sync, hrun1]
  have h2' : processProviders env.getErr env.updateErr inst.name (ISO8601 env.now)
      store1 (p2 :: rest) = (store1, some e) := by
    rcases h2 with hb | ⟨hb, hs⟩
    · simp only [processProviders, hb]
    · simp only [processProviders, hb, hs]
  have hpp : processProviders env.getErr env.updateErr inst.name (ISO8601 env.now)
      env.store env.providers = (store1, some e) := by
    rw [hprov, h1, h2']
  have hrec : Reconcile env = errorOut env store1 e := by
    simp [Reconcile, hfetch, hmgr, hdef, hval, hpp]
  rw [hrec]
  exact ⟨rfl, rfl, rfl⟩

/-- Witness for C5: the first provider upserts `devs`, the second fails at
Bind; the pass errors while `devs` stays written. -/
theorem reconcile_abort_on_later_provider_witness :
    envC5.fetch = FetchOutcome.ok instGS ∧
    envC5.mgrErr = none ∧
    envC5.setDefaultsChanged = false ∧
    envC5.validateErr = none ∧
    envC5.providers = provOk :: provBad :: [] ∧
    provOk.bindResult = none ∧
    provOk.syncResult = Except.ok [extGroupC] ∧
    processGroups envC5.getErr envC5.updateErr (instGS.name ++ "_" ++ provOk.providerName)
      (ISO8601 envC5.now) envC5.store [extGroupC] = (storeAfterProv1, none) ∧
    provBad.bindResult = some "bind failed" ∧
    ((Reconcile envC5).error = some "bind failed" ∧
      (Reconcile envC5).store = storeAfterProv1 ∧
      (Reconcile envC5).condition =
        some { reason := "synchronization error", message := "bind failed" }) :=
  ⟨rfl, rfl, rfl, rfl, rfl, rfl, rfl, by decide, rfl,
    reconcile_abort_on_later_provider envC5 instGS provOk provBad [] [extGroupC]
      storeAfterProv1 "bind failed" rfl rfl rfl rfl rfl rfl rfl (by decide) (Or.inl rfl)⟩

/-- Claim C9: when the lookup of an existing downstream group fails with an
error other than not-found, the whole pass aborts through the error path —
condition set, warning event emitted, the error returned — instead of
skipping that group or carrying on. -/
theorem reconcile_group_lookup_error_aborts
    (env : Env) (inst : GroupSync) (p : ProviderSyncer) (ps : List ProviderSyncer)
    (gs1 gs2 : List OcpGroup) (g : OcpGroup) (st1 : Store) (e : String)
    (hfetch : env.fetch = FetchOutcome.ok inst)
    (hmgr : env.mgrErr = none)
    (hdef : env.setDefaultsChanged = false)
    (hval : env.validateErr = none)
    (hprov : env.providers = p :: ps)
    (hbind : p.bindResult = none)
    (hsync : p.syncResult = Except.ok (gs1 ++ g :: gs2))
    (hpre : processGroups env.getErr env.updateErr (inst.name ++ "_" ++ p.providerName)
      (ISO8601 env.now) env.store gs1 = (st1, none))
    (hget : env.getErr g.name = some e) :
    (Reconcile env).error = some e ∧
    (Reconcile env).events =
      [{ eventtype := "Warning", reason := "GroupSyncError", message := e }] ∧
    (Reconcile env).condition = some { reason := "synchronization error", message := e } ∧
    (Reconcile env).store = st1 := by
  have hrun : processGroups env.getErr env.updateErr (inst.name ++ "_" ++ p.providerName)
      (ISO8601 env.now) env.store (gs1 ++ g :: gs2) = (st1, some e) := by
    rw [processGroups_append _ _ _ _ _ _ _ _ hpre]
    simp only [processGroups, lookupOutcome, hget, mergeGroup]
  have hpp : processProviders env.getErr env.updateErr inst.name (ISO8601 env.now)
      env.store env.providers = (st1, some e) := by
    rw [hprov]
    simp only [processProviders, hbind, hsync, hrun]
  have hrec : Reconcile env = errorOut env st1 e := by
    simp [Reconcile, hfetch, hmgr, hdef, hval, hpp]
  rw [hrec]
  exact ⟨rfl, rfl, rfl, rfl⟩

/-- Witness for C9: the lookup of `devs` fails transiently and the pass
aborts with that error. -/
theorem reconcile_group_lookup_error_aborts_witness :
    envC9.fetch = FetchOutcome.ok instGS ∧
    envC9.mgrErr = none ∧
    envC9.setDefaultsChanged = false ∧
    envC9.validateErr = none ∧
    envC9.providers = provOk :: [] ∧
    provOk.bindResult = none ∧
    provOk.syncResult = Except.ok ([] ++ extGroupC :: []) ∧
    processGroups envC9.getErr envC9.updateErr (instGS.name ++ "_" ++ provOk.providerName)
      (ISO8601 envC9.now) envC9.store [] = (envC9.store, none) ∧
    envC9.getErr extGroupC.name = some "get failed" ∧
    ((Reconcile envC9).error = some "get failed" ∧
      (Reconcile envC9).events =
        [{ eventtype := "Warning", reason := "GroupSyncError", message := "get failed" }] ∧
      (Reconcile envC9).condition =
        some { reason := "synchronization error", message := "get failed" } ∧
      (Reconcile envC9).store = envC9.store) :=
  ⟨rfl, rfl, rfl, rfl, rfl, rfl, rfl, rfl, by decide,
    reconcile_group_lookup_error_aborts envC9 instGS provOk [] [] [] extGroupC
      envC9.store "get failed" rfl rfl rfl rfl rfl rfl rfl rfl (by decide)⟩

/-- Claim C2 is contradicted by the code: a pass that completes every
provider sync successfully but carries a schedule string that fails to
parse does not report success with no requeue — `ParseStandard`'s error is
discarded on line 181 and the nil schedule's `Next` is invoked on line 184,
so the pass panics.  Evaluated at a concrete failing input. -/
theorem malformed_schedule_panics :
    (Reconcile envC2).panicked = true ∧
    (Reconcile envC2).condition = some { reason := "synchronization succeeded", message := "group synchronization has succeeded" } :=
  ⟨by decide, by decide⟩
